import Mathlib

/-!
Verification of the Amazon Neptune MCP server's schema-probing logic
(`awslabs/amazon_neptune_mcp_server/graph_store/database.py`) via a shallow
embedding: the pure data transformations of `NeptuneDatabase` are translated
into executable Lean definitions, and the stated properties are settled as
theorems about those definitions.

Strings are modelled as `List Char` (`Str`) where character-level reasoning
is needed, and as `String` elsewhere.
-/

namespace NeptuneMCP

abbrev Str := List Char

/-- Python `s.split(c)` for a one-character separator: the list of maximal
segments of `s` between occurrences of `c` (`"".split(c) = ['']`,
`"a##b".split('#') = ['a','','b']`). -/
def splitChar (c : Char) : Str → List Str
  | [] => [[]]
  | x :: xs =>
    if x = c then [] :: splitChar c xs
    else
      match splitChar c xs with
      | [] => [[x]]
      | s :: rest => (x :: s) :: rest

/-- Python `s.rsplit(c, 1)` when `c` occurs in `s`: split at the last
occurrence of `c`, returning (part before it, part after it). -/
def rsplitOnce (c : Char) (s : Str) : Str × Str :=
  let rev := s.reverse
  ((rev.dropWhile (· ≠ c)).tail.reverse, (rev.takeWhile (· ≠ c)).reverse)

/-- `NeptuneDatabase._get_local_name` (database.py:344-357): split an IRI
into prefix and local name.  If the IRI contains `'#'` it is split on every
`'#'` and the result is `(tokens[0] + '#', tokens[1])`; otherwise, if it
contains `'/'`, it is `rsplit('/', 1)` and the result is
`(tokens[0] + '/', tokens[1])`; otherwise a `ValueError` is raised
(modelled as `Except.error`). -/
def get_local_name (iri : Str) : Except String (Str × Str) :=
  if '#' ∈ iri then
    let tokens := splitChar '#' iri
    Except.ok (tokens.getD 0 [] ++ ['#'], tokens.getD 1 [])
  else if '/' ∈ iri then
    let tokens := rsplitOnce '/' iri
    Except.ok (tokens.1 ++ ['/'], tokens.2)
  else
    Except.error ("Unexpected IRI, contains neither hash nor slash.")

/-! ## Property-graph data model (models.py) -/

/-- models.py `Property`: a property name with the list of observed type
tags (`type=list(v)` of the accumulated Python set, represented here in
first-insertion order). -/
structure Property where
  name : String
  type : List String
deriving DecidableEq, Repr

/-- models.py `Node`: a node label with its aggregated properties. -/
structure Node where
  labels : String
  properties : List Property
deriving DecidableEq, Repr

/-- models.py `Relationship`: an edge label with its aggregated properties. -/
structure Relationship where
  type : String
  properties : List Property
deriving DecidableEq, Repr

/-- models.py `RelationshipPattern`: a (left_node, relation, right_node)
connection pattern. -/
structure RelationshipPattern where
  left_node : String
  right_node : String
  relation : String
deriving DecidableEq, Repr

/-- models.py `GraphSchema`. -/
structure GraphSchema where
  nodes : List Node
  relationships : List Relationship
  relationship_patterns : List RelationshipPattern
deriving DecidableEq, Repr

/-! ## Triple (relationship-pattern) extraction (database.py:135-165) -/

/-- One row of the per-edge-label pattern query
`RETURN DISTINCT labels(a) AS from, type(e) AS edge, labels(b) AS to`:
`fromLabels` is `d['from']`, `edge` is `d['edge']`, `toLabels` is `d['to']`. -/
structure TripleRow where
  fromLabels : List String
  edge : String
  toLabels : List String
deriving DecidableEq, Repr

/-- Deduplication keeping the first occurrence of each element, as openCypher
`DISTINCT` does (`seen` accumulates the elements already emitted). -/
def dedupFirstAux [DecidableEq α] (seen : List α) : List α → List α
  | [] => []
  | x :: xs =>
    if x ∈ seen then dedupFirstAux seen xs
    else x :: dedupFirstAux (x :: seen) xs

/-- Deduplication keeping first occurrences. -/
def dedupFirst [DecidableEq α] (l : List α) : List α :=
  dedupFirstAux [] l

/-- Semantics of the pattern query (database.py:147-152) on the stream of
projected matches for one edge label:
`MATCH (a)-[e:L]->(b) WITH a,e,b LIMIT 3000` caps the raw matches at 3000,
then `RETURN DISTINCT ... LIMIT 10` deduplicates the projected rows and
returns at most 10 of them. -/
def runTripleQuery (ms : List TripleRow) : List TripleRow :=
  (dedupFirst (ms.take 3000)).take 10

/-- Building one `RelationshipPattern` from a returned row
(database.py:159-163): `left_node=d['from'][0]`, `right_node=d['to'][0]`,
`relation=d['edge']`.  Python indexes `[0]` and raises `IndexError` on an
empty label list; rows produced by the pattern query carry the labels of a
matched node, modelled with default `""` for the empty case. -/
def toPattern (d : TripleRow) : RelationshipPattern :=
  { left_node := d.fromLabels.headD "", right_node := d.toLabels.headD "",
    relation := d.edge }

/-- The patterns contributed by one iteration of the edge-label loop of
`_get_triples`. -/
def tripleContrib (queryMatches : String → List TripleRow) (label : String) :
    List RelationshipPattern :=
  (runTripleQuery (queryMatches label)).map toPattern

/-- `NeptuneDatabase._get_triples` (database.py:135-165): for each edge label
run the bounded pattern query and append one pattern per returned row (the
nested append loop builds exactly the concatenation of the per-label
contributions).  `queryMatches` gives, per label, the projected matches of
the pattern query in match order. -/
def get_triples (queryMatches : String → List TripleRow)
    (e_labels : List String) : List RelationshipPattern :=
  (e_labels.map (tripleContrib queryMatches)).flatten

/-! ## Property aggregation (database.py:167-242) -/

/-- A sampled openCypher property value; the constructor records exactly the
Python runtime type (`type(v).__name__`), which is all the aggregation code
inspects.  Float and container payloads are irrelevant to the schema code
and are elided. -/
inductive PropValue where
  | vstr : String → PropValue
  | vint : Int → PropValue
  | vfloat : String → PropValue
  | vbool : Bool → PropValue
  | vlist : PropValue
  | vmap : PropValue
deriving DecidableEq, Repr

/-- `type(v).__name__` of a sampled value. -/
def typeName : PropValue → String
  | .vstr _ => "str"
  | .vint _ => "int"
  | .vfloat _ => "float"
  | .vbool _ => "bool"
  | .vlist => "list"
  | .vmap => "dict"

/-- The `types` mapping built in `_refresh_lpg_schema` (database.py:253-260). -/
def typesDict : List (String × String) :=
  [("str", "STRING"), ("float", "DOUBLE"), ("int", "INTEGER"),
   ("list", "LIST"), ("dict", "MAP"), ("bool", "BOOLEAN")]

/-- `types[type(v).__name__]` (every `PropValue` constructor has an entry, so
the lookup never misses). -/
def typesGet (tn : String) : String :=
  (typesDict.lookup tn).getD ""

/-- Adding one type tag to the set of tags observed for a key (Python
`set` membership semantics, represented in first-insertion order). -/
def insertType (ts : List String) (t : String) : List String :=
  if t ∈ ts then ts else ts ++ [t]

/-- The body of the aggregation loop (database.py:192-196): if `k` is not
yet in `props`, bind it to the singleton set `{t}` (inserted at the end, as
Python dict insertion does); otherwise update the existing set with `t`. -/
def updateProp : List (String × List String) → String → String →
    List (String × List String)
  | [], k, t => [(k, [t])]
  | (k', ts) :: rest, k, t =>
    if k' = k then (k', insertType ts t) :: rest
    else (k', ts) :: updateProp rest k t

/-- One `(k, v)` item of a sampled property map folded into `props`. -/
def aggStep (ps : List (String × List String)) (kv : String × PropValue) :
    List (String × List String) :=
  updateProp ps kv.1 (typesGet (typeName kv.2))

/-- The `props` accumulation over all sampled property maps
(database.py:189-196): `rows` is the list of `p['props'].items()` maps. -/
def aggProps (rows : List (List (String × PropValue))) :
    List (String × List String) :=
  rows.foldl (fun props row => row.foldl aggStep props) []

/-- `properties = [Property(name=k, type=list(v)) for k, v in props.items()]`
(database.py:198-200). -/
def propsList (props : List (String × List String)) : List Property :=
  props.map fun kv => { name := kv.1, type := kv.2 }

/-- The sampling query `MATCH ... RETURN properties(...) AS props LIMIT 100`
(database.py:180-184, 218-222): at most 100 sampled property maps. -/
def runPropsQuery (instances : List (List (String × PropValue))) :
    List (List (String × PropValue)) :=
  instances.take 100

/-- `NeptuneDatabase._get_node_properties` (database.py:167-203):
one `Node` per label, with the properties aggregated over the sampled
instances.  `samples` gives, per label, the property maps of the matched
nodes in match order. -/
def get_node_properties
    (samples : String → List (List (String × PropValue)))
    (n_labels : List String) : List Node :=
  n_labels.map fun label =>
    { labels := label,
      properties := propsList (aggProps (runPropsQuery (samples label))) }

/-- `NeptuneDatabase._get_edge_properties` (database.py:205-242): same
aggregation per edge label, producing `Relationship` entries. -/
def get_edge_properties
    (samples : String → List (List (String × PropValue)))
    (e_labels : List String) : List Relationship :=
  e_labels.map fun label =>
    { type := label,
      properties := propsList (aggProps (runPropsQuery (samples label))) }

/-! ## Association-list model of Python dicts

Python dicts preserve insertion order; assignment to an existing key keeps
its position, assignment to a new key appends.  Keys are unique by
construction, so updating every matching entry updates exactly one. -/

/-- Apply `f` to the value bound to `k` (no change when `k` is absent). -/
def updAssoc (m : List (String × α)) (k : String) (f : α → α) :
    List (String × α) :=
  m.map fun kv => if kv.1 = k then (kv.1, f kv.2) else kv

/-- Python `m[k] = v`. -/
def putAssoc (m : List (String × α)) (k : String) (v : α) :
    List (String × α) :=
  if (m.lookup k).isSome then updAssoc m k (fun _ => v) else m ++ [(k, v)]

/-- Python `k in m`. -/
def memAssoc (m : List (String × α)) (k : String) : Bool :=
  (m.lookup k).isSome

/-! ## Signed SPARQL query execution (database.py:563-600) -/

/-- Python `s.splitlines()` restricted to `'\n'` line breaks (the queries
built by this module use `'\n'` only): split on every `'\n'`, with no
trailing empty line when the string ends in `'\n'`, and no line at all for
the empty string. -/
def pySplitLines (s : Str) : List Str :=
  if s = [] then []
  else
    let parts := splitChar '\n' s
    if s.getLast? = some '\n' then parts.dropLast else parts

/-- Python `line.strip()`: remove leading and trailing whitespace. -/
def pyStrip (l : Str) : Str :=
  ((l.dropWhile Char.isWhitespace).reverse.dropWhile Char.isWhitespace).reverse

/-- `sep.join` on character lists. -/
def intercalateChar (sep : Char) : List Str → Str
  | [] => []
  | [a] => a
  | a :: b :: as => a ++ sep :: intercalateChar sep (b :: as)

/-- `' '.join(line.strip() for line in query.splitlines())`
(database.py:575). -/
def normalizeQuery (q : String) : String :=
  String.mk (intercalateChar ' ' ((pySplitLines q.toList).map pyStrip))

/-- The read-only operation keywords (database.py:579). -/
def sparqlQueryKeywords : List String :=
  ["SELECT", "CONSTRUCT", "ASK", "DESCRIBE"]

/-- Python `str.upper()` character-wise; the operation keywords compared
against are plain ASCII. -/
def pyUpper (s : String) : String :=
  String.mk (s.toList.map Char.toUpper)

/-- The POST request assembled by `_query_sparql` before signing. -/
structure SparqlRequest where
  url : String
  data : String
  headers : List (String × String)
deriving DecidableEq, Repr

/-- `NeptuneDatabase._query_sparql`, request-building part
(database.py:572-590).  `queryType` models `str(s.queryType)` as computed
by SPARQLWrapper from the query text.  The body is `query=<normalized>`
for SELECT / CONSTRUCT / ASK / DESCRIBE and `update=<normalized>`
otherwise, with `Content-Type` set accordingly — and then unconditionally
overwritten with `application/x-www-form-urlencoded` (line 589) before the
request is signed and sent. -/
def buildSparqlRequest (endpointUrl : String) (queryType : String)
    (query : String) : SparqlRequest :=
  let query := normalizeQuery query
  let query_type := pyUpper queryType
  let headers : List (String × String) := []
  let headers := putAssoc headers "Accept" "application/json"
  let bodyHeaders :=
    if query_type ∈ sparqlQueryKeywords then
      ("query=" ++ query, putAssoc headers "Content-Type" "application/sparql-query")
    else
      ("update=" ++ query, putAssoc headers "Content-Type" "application/sparql-update")
  let url := endpointUrl ++ "/sparql"
  let headers := putAssoc bodyHeaders.2 "Content-Type" "application/x-www-form-urlencoded"
  { url := url, data := bodyHeaders.1, headers := headers }

/-- An HTTP response as seen by `_query_sparql` (`resp.status_code`,
`resp.text`). -/
structure HttpResponse where
  status : Nat
  text : String
deriving DecidableEq, Repr

/-- `NeptuneDatabase._query_sparql`, response-handling part
(database.py:596-600): the function ends with `return json.loads(resp.text)`
— the body is parsed as JSON and returned for every response; the HTTP
status is never inspected.  `jsonLoads` abstracts Python `json.loads`
(its failure is a raised `JSONDecodeError`). -/
def sparqlResult (jsonLoads : String → Except String α)
    (resp : HttpResponse) : Except String α :=
  jsonLoads resp.text

/-! ## RDF schema build (database.py:344-561, models.py)

models.py's `local` field is named `localName` here (`local` is reserved in
Lean).  `rdfclasses` and `predicates` are carried on the schema record as
database.py assigns (and the test suite reads) them, although the checked-in
models.py declares neither field. -/

/-- models.py `OntologyItem`. -/
structure OntologyItem where
  uri : String
  label : Option String := none
  comment : Option String := none
deriving DecidableEq, Repr

/-- models.py `ClassItem`. -/
structure ClassItem where
  uri : String
  localName : String
  parent_uri : Option String := none
  label : Option String := none
  comment : Option String := none
deriving DecidableEq, Repr

/-- models.py `DatatypePropertyItem`. -/
structure DatatypePropertyItem where
  uri : String
  localName : String
  parent_uri : Option String := none
  domain_uri : Option String := none
  range_uri : Option String := none
  label : Option String := none
  comment : Option String := none
deriving DecidableEq, Repr

/-- models.py `ObjectPropertyItem`. -/
structure ObjectPropertyItem where
  uri : String
  localName : String
  parent_uri : Option String := none
  domain_uri : Option String := none
  range_uri : Option String := none
  label : Option String := none
  comment : Option String := none
deriving DecidableEq, Repr

/-- models.py `URIItem`. -/
structure URIItem where
  uri : String
  localName : String
deriving DecidableEq, Repr

/-- models.py `RDFGraphSchema`. -/
structure RDFGraphSchema where
  distinct_prefixes : List (String × String)
  ontologies : List OntologyItem := []
  classes : List ClassItem := []
  rels : List URIItem := []
  dtprops : List DatatypePropertyItem := []
  oprops : List ObjectPropertyItem := []
  rdfclasses : List String := []
  predicates : List String := []
deriving DecidableEq, Repr

/-- One SPARQL result binding: `some v` models a key present with
`{'value': v}` (database.py:465-468 reads `binding['s']['value']` etc.
after checking key presence). -/
structure Binding where
  s : Option String
  p : Option String
  o : Option String
deriving DecidableEq, Repr

def rdfTypeUri : String := "http://www.w3.org/1999/02/22-rdf-syntax-ns#type"

def owlOntologyUri : String := "http://www.w3.org/2002/07/owl#Ontology"

def owlClassUri : String := "http://www.w3.org/2002/07/owl#Class"

def owlDatatypePropertyUri : String := "http://www.w3.org/2002/07/owl#DatatypeProperty"

def owlObjectPropertyUri : String := "http://www.w3.org/2002/07/owl#ObjectProperty"

def rdfsLabelUri : String := "http://www.w3.org/2000/01/rdf-schema#label"

def rdfsCommentUri : String := "http://www.w3.org/2000/01/rdf-schema#comment"

def rdfsSubClassOfUri : String := "http://www.w3.org/2000/01/rdf-schema#subClassOf"

def rdfsSubPropertyOfUri : String := "http://www.w3.org/2000/01/rdf-schema#subPropertyOf"

def rdfsDomainUri : String := "http://www.w3.org/2000/01/rdf-schema#domain"

def rdfsRangeUri : String := "http://www.w3.org/2000/01/rdf-schema#range"

/-- `_get_local_name` lifted to `String` arguments. -/
def getLocalNameStr (s : String) : Except String (String × String) :=
  match get_local_name s.toList with
  | .ok pl => .ok (String.mk pl.1, String.mk pl.2)
  | .error e => .error e

/-- The mutable locals of the binding-processing loop of `get_rdf_schema`
(database.py:455-459 plus the `prefixes` dict of line 386).  `log` is
instrumentation recording logger output produced inside the loop; the
source loop contains no logger call, in particular the malformed-IRI
handler is a bare `except ValueError: pass`. -/
structure RDFBuild where
  prefixes : List (String × String) := []
  ontologies : List (String × OntologyItem) := []
  classes : List (String × ClassItem) := []
  dtprops : List (String × DatatypePropertyItem) := []
  oprops : List (String × ObjectPropertyItem) := []
  rels : List URIItem := []
  log : List String := []
deriving DecidableEq, Repr

/-- `if prefix not in prefixes: prefixes[prefix] = f'ns{len(prefixes)}'`
(database.py:488-489 and twins). -/
def registerPrefix (m : List (String × String)) (pre : String) :
    List (String × String) :=
  if (m.lookup pre).isSome then m
  else m ++ [(pre, "ns" ++ toString m.length)]

/-- The ontology if/elif chain (database.py:470-479). -/
def processOntologyChain (st : RDFBuild) (s p o : String) : RDFBuild :=
  if p = rdfTypeUri ∧ o = owlOntologyUri then
    { st with ontologies := putAssoc st.ontologies s { uri := s } }
  else if p = rdfsLabelUri ∧ memAssoc st.ontologies s then
    { st with ontologies := updAssoc st.ontologies s fun it => { it with label := some o } }
  else if p = rdfsCommentUri ∧ memAssoc st.ontologies s then
    { st with ontologies := updAssoc st.ontologies s fun it => { it with comment := some o } }
  else st

/-- The class if/elif chain (database.py:481-499); a `ValueError` from
`_get_local_name` is swallowed (`except ValueError: pass`). -/
def processClassChain (st : RDFBuild) (s p o : String) : RDFBuild :=
  if p = rdfTypeUri ∧ o = owlClassUri then
    match getLocalNameStr s with
    | .ok pl =>
      let st := { st with prefixes := registerPrefix st.prefixes pl.1 }
      if memAssoc st.classes s then st
      else { st with classes := st.classes ++ [(s, { uri := s, localName := pl.2 })] }
    | .error _ => st
  else if p = rdfsSubClassOfUri ∧ memAssoc st.classes s then
    { st with classes := updAssoc st.classes s fun c => { c with parent_uri := some o } }
  else if p = rdfsLabelUri ∧ memAssoc st.classes s then
    { st with classes := updAssoc st.classes s fun c => { c with label := some o } }
  else if p = rdfsCommentUri ∧ memAssoc st.classes s then
    { st with classes := updAssoc st.classes s fun c => { c with comment := some o } }
  else st

/-- The datatype-property if/elif chain (database.py:501-525). -/
def processDtpropChain (st : RDFBuild) (s p o : String) : RDFBuild :=
  if p = rdfTypeUri ∧ o = owlDatatypePropertyUri then
    match getLocalNameStr s with
    | .ok pl =>
      let st := { st with prefixes := registerPrefix st.prefixes pl.1 }
      if memAssoc st.dtprops s then st
      else { st with dtprops := st.dtprops ++ [(s, { uri := s, localName := pl.2 })] }
    | .error _ => st
  else if p = rdfsSubPropertyOfUri ∧ memAssoc st.dtprops s then
    { st with dtprops := updAssoc st.dtprops s fun c => { c with parent_uri := some o } }
  else if p = rdfsDomainUri ∧ memAssoc st.dtprops s then
    { st with dtprops := updAssoc st.dtprops s fun c => { c with domain_uri := some o } }
  else if p = rdfsRangeUri ∧ memAssoc st.dtprops s then
    { st with dtprops := updAssoc st.dtprops s fun c => { c with range_uri := some o } }
  else if p = rdfsLabelUri ∧ memAssoc st.dtprops s then
    { st with dtprops := updAssoc st.dtprops s fun c => { c with label := some o } }
  else if p = rdfsCommentUri ∧ memAssoc st.dtprops s then
    { st with dtprops := updAssoc st.dtprops s fun c => { c with comment := some o } }
  else st

/-- The object-property if/elif chain (database.py:527-550); a newly seen
object property is additionally appended to `rels`. -/
def processOpropChain (st : RDFBuild) (s p o : String) : RDFBuild :=
  if p = rdfTypeUri ∧ o = owlObjectPropertyUri then
    match getLocalNameStr s with
    | .ok pl =>
      let st := { st with prefixes := registerPrefix st.prefixes pl.1 }
      if memAssoc st.oprops s then st
      else { st with
               oprops := st.oprops ++ [(s, { uri := s, localName := pl.2 })],
               rels := st.rels ++ [{ uri := s, localName := pl.2 }] }
    | .error _ => st
  else if p = rdfsSubPropertyOfUri ∧ memAssoc st.oprops s then
    { st with oprops := updAssoc st.oprops s fun c => { c with parent_uri := some o } }
  else if p = rdfsDomainUri ∧ memAssoc st.oprops s then
    { st with oprops := updAssoc st.oprops s fun c => { c with domain_uri := some o } }
  else if p = rdfsRangeUri ∧ memAssoc st.oprops s then
    { st with oprops := updAssoc st.oprops s fun c => { c with range_uri := some o } }
  else if p = rdfsLabelUri ∧ memAssoc st.oprops s then
    { st with oprops := updAssoc st.oprops s fun c => { c with label := some o } }
  else if p = rdfsCommentUri ∧ memAssoc st.oprops s then
    { st with oprops := updAssoc st.oprops s fun c => { c with comment := some o } }
  else st

/-- One iteration of the binding loop (database.py:464-550): the four
if/elif chains run in sequence on `(s, p, o)`; a binding missing any of the
three keys is skipped. -/
def processBinding (st : RDFBuild) (b : Binding) : RDFBuild :=
  match b.s, b.p, b.o with
  | some s, some p, some o =>
    processOpropChain
      (processDtpropChain
        (processClassChain
          (processOntologyChain st s p o) s p o) s p o) s p o
  | _, _, _ => st

/-- The whole binding loop. -/
def processBindings (st : RDFBuild) (bs : List Binding) : RDFBuild :=
  bs.foldl processBinding st

/-! ## Environments and connection state -/

/-- The `graphSummary` payload of the property-graph summary API, as used
by `_get_labels` (database.py:122-133). -/
structure GraphSummary where
  nodeLabels : List String
  edgeLabels : List String
deriving DecidableEq, Repr

/-- The `graphSummary` payload of the RDF summary API
(database.py:379-383): class list plus the key lists of the dicts in
`predicates`. -/
structure RdfSummary where
  classes : List String
  predicateKeys : List (List String)
deriving DecidableEq, Repr

/-- The remote property-graph database as seen through the queries
`_refresh_lpg_schema` issues: the summary-API outcome (`Except.error`
models the wrapped `NeptuneException`), and per label the projected
matches of the pattern query and the sampled property maps. -/
structure LpgEnv where
  summary : Except String GraphSummary
  tripleMatches : String → List TripleRow
  nodeSamples : String → List (List (String × PropValue))
  edgeSamples : String → List (List (String × PropValue))

/-- The remote RDF store as seen by `get_rdf_schema`: the summary payload
and the CONSTRUCT-query response (`some bs` when `'results'` is present,
with `bindings` defaulted to `[]`; `none` when absent). -/
structure RdfEnv where
  rdfSummary : RdfSummary
  sparqlBindings : Option (List Binding)

/-- The mutable fields of a `NeptuneDatabase` instance relevant here:
the two schema caches (database.py:57-58) plus `queryCount`,
instrumentation counting the backend API invocations issued. -/
structure DBState where
  schema : Option GraphSchema
  rdf_schema : Option RDFGraphSchema
  queryCount : Nat
deriving DecidableEq, Repr

/-- `NeptuneDatabase._refresh_lpg_schema` (database.py:244-269): fetch the
labels (one summary call), then run the three query loops (one openCypher
call per label each) and cache the assembled `GraphSchema`. -/
def refresh_lpg_schema (env : LpgEnv) (st : DBState) :
    Except String (GraphSchema × DBState) :=
  match env.summary with
  | .error e => .error e
  | .ok summ =>
    let n_labels := summ.nodeLabels
    let e_labels := summ.edgeLabels
    let triple_schema := get_triples env.tripleMatches e_labels
    let nodes := get_node_properties env.nodeSamples n_labels
    let rels := get_edge_properties env.edgeSamples e_labels
    let graph : GraphSchema :=
      { nodes := nodes, relationships := rels,
        relationship_patterns := triple_schema }
    .ok (graph,
      { st with
        schema := some graph,
        queryCount :=
          st.queryCount + 1 + e_labels.length + n_labels.length + e_labels.length })

/-- `NeptuneDatabase.get_lpg_schema` (database.py:271-283): refresh when the
cache is empty, then return the cached schema (after a successful refresh
the cache holds the freshly built — always truthy — schema object, so the
`else GraphSchema(...)` fallback of line 282 is never taken). -/
def get_lpg_schema (env : LpgEnv) (st : DBState) :
    Except String (GraphSchema × DBState) :=
  match st.schema with
  | some g => .ok (g, st)
  | none => refresh_lpg_schema env st

/-- `NeptuneDatabase.get_rdf_schema` (database.py:359-561): return the
cached schema when present; otherwise issue the RDF summary call and the
SPARQL CONSTRUCT query (two backend calls), process the bindings and cache
the result. -/
def get_rdf_schema (env : RdfEnv) (st : DBState) :
    RDFGraphSchema × DBState :=
  match st.rdf_schema with
  | some r => (r, st)
  | none =>
    let build :=
      match env.sparqlBindings with
      | some bs => processBindings {} bs
      | none => {}
    let r : RDFGraphSchema :=
      { distinct_prefixes := build.prefixes,
        ontologies := build.ontologies.map Prod.snd,
        classes := build.classes.map Prod.snd,
        rels := build.rels,
        dtprops := build.dtprops.map Prod.snd,
        oprops := build.oprops.map Prod.snd,
        rdfclasses := env.rdfSummary.classes,
        predicates := env.rdfSummary.predicateKeys.flatten }
    (r, { st with rdf_schema := some r, queryCount := st.queryCount + 2 })

/- Basic facts about `splitChar`. -/

theorem splitChar_ne_nil (c : Char) (l : Str) : splitChar c l ≠ [] := by
  induction l with
  | nil => simp [splitChar]
  | cons x xs ih =>
    simp only [splitChar]
    split
    · simp
    · cases h : splitChar c xs with
      | nil => simp
      | cons s rest => simp

theorem splitChar_not_mem (c : Char) (l : Str) (h : c ∉ l) :
    splitChar c l = [l] := by
  induction l with
  | nil => rfl
  | cons x xs ih =>
    simp only [List.mem_cons, not_or] at h
    have hx : ¬ x = c := fun hxc => h.1 hxc.symm
    simp only [splitChar, if_neg hx, ih h.2]

theorem splitChar_append (c : Char) (pre post : Str) (h : c ∉ pre) :
    splitChar c (pre ++ c :: post) = pre :: splitChar c post := by
  induction pre with
  | nil => simp [splitChar]
  | cons x xs ih =>
    simp only [List.mem_cons, not_or] at h
    have hx : ¬ x = c := fun hxc => h.1 hxc.symm
    show splitChar c (x :: (xs ++ c :: post)) = (x :: xs) :: splitChar c post
    simp only [splitChar, if_neg hx, ih h.2]

theorem splitChar_head (c : Char) (l : Str) :
    (splitChar c l).headD [] = l.takeWhile (· ≠ c) := by
  induction l with
  | nil => rfl
  | cons x xs ih =>
    simp only [splitChar]
    by_cases hx : x = c
    · subst hx
      simp [List.takeWhile]
    · rw [if_neg hx]
      cases h : splitChar c xs with
      | nil => exact absurd h (splitChar_ne_nil c xs)
      | cons s rest =>
        rw [h] at ih
        simp only [List.headD] at ih ⊢
        simp only [List.takeWhile, decide_not]
        rw [show (decide (x = c)) = false by simp [hx]]
        simp only [Bool.not_false]
        simp only [decide_not] at ih
        rw [ih]

theorem takeWhile_all_append (p : Char → Bool) (l₁ l₂ : Str) (x : Char)
    (h₁ : ∀ a ∈ l₁, p a = true) (hx : p x = false) :
    (l₁ ++ x :: l₂).takeWhile p = l₁ := by
  induction l₁ with
  | nil => simp [List.takeWhile, hx]
  | cons a as ih =>
    show List.takeWhile p (a :: (as ++ x :: l₂)) = a :: as
    simp only [List.takeWhile]
    rw [h₁ a (List.mem_cons_self a as)]
    rw [ih fun b hb => h₁ b (List.mem_cons_of_mem a hb)]

theorem dropWhile_all_append (p : Char → Bool) (l₁ l₂ : Str) (x : Char)
    (h₁ : ∀ a ∈ l₁, p a = true) (hx : p x = false) :
    (l₁ ++ x :: l₂).dropWhile p = x :: l₂ := by
  induction l₁ with
  | nil => simp [List.dropWhile, hx]
  | cons a as ih =>
    show List.dropWhile p (a :: (as ++ x :: l₂)) = x :: l₂
    simp only [List.dropWhile]
    rw [h₁ a (List.mem_cons_self a as)]
    exact ih fun b hb => h₁ b (List.mem_cons_of_mem a hb)

theorem rsplitOnce_eq (c : Char) (pre post : Str) (h : c ∉ post) :
    rsplitOnce c (pre ++ c :: post) = (pre, post) := by
  have hall : ∀ a ∈ post.reverse, (a ≠ c : Bool) = true := by
    intro a ha
    simp only [List.mem_reverse] at ha
    simp only [decide_eq_true_eq]
    intro hac
    exact h (hac ▸ ha)
  have hc : ((c ≠ c : Bool)) = false := by simp
  simp only [rsplitOnce, List.reverse_append, List.reverse_cons]
  rw [List.append_assoc, List.singleton_append]
  rw [takeWhile_all_append _ _ _ _ hall hc, dropWhile_all_append _ _ _ _ hall hc]
  simp

/-- C1, counterexample: the claim states that for an IRI containing `'#'`
the local name is the ENTIRE remainder after the first `'#'`.  On the IRI
`a#b#c` the code returns local name `b` (`tokens[1]` of the split on every
`'#'`), not the remainder `b#c`. -/
theorem c1_counterexample :
    get_local_name ['a', '#', 'b', '#', 'c'] = Except.ok (['a', '#'], ['b'])
    ∧ (['b'] : Str) ≠ ['b', '#', 'c'] := by
  constructor
  · rfl
  · decide

/-- C1 (amended): for an IRI containing `'#'`, `_get_local_name` returns
(prefix through the first `'#'` inclusive, the segment strictly between the
first `'#'` and the next `'#'` — i.e. the entire remainder only when no
further `'#'` occurs); for an IRI containing `'/'` but no `'#'`, it splits
at the last `'/'` (prefix keeps the trailing `'/'`); for an IRI containing
neither, it fails with an error. -/
theorem c1_get_local_name_characterization :
    (∀ pre post : Str, '#' ∉ pre →
        get_local_name (pre ++ '#' :: post)
          = Except.ok (pre ++ ['#'], post.takeWhile (· ≠ '#')))
    ∧ (∀ pre post : Str, '#' ∉ pre ++ '/' :: post → '/' ∉ post →
        get_local_name (pre ++ '/' :: post) = Except.ok (pre ++ ['/'], post))
    ∧ (∀ iri : Str, '#' ∉ iri → '/' ∉ iri →
        get_local_name iri
          = Except.error "Unexpected IRI, contains neither hash nor slash.") := by
  refine ⟨fun pre post h => ?_, fun pre post h₁ h₂ => ?_, fun iri h₁ h₂ => ?_⟩
  · have hmem : '#' ∈ pre ++ '#' :: post := by
      simp [List.mem_append]
    simp only [get_local_name, if_pos hmem, splitChar_append '#' pre post h]
    cases hsp : splitChar '#' post with
    | nil => exact absurd hsp (splitChar_ne_nil '#' post)
    | cons s rest =>
      have hh := splitChar_head '#' post
      rw [hsp] at hh
      simp only [List.headD] at hh
      simp [List.getD, hh]
  · simp only [get_local_name, if_neg h₁]
    have hmem : '/' ∈ pre ++ '/' :: post := by
      simp [List.mem_append]
    simp only [if_pos hmem, rsplitOnce_eq '/' pre post h₂]
  · simp only [get_local_name, if_neg h₁, if_neg h₂]

/-- C1, witness: the characterization applied at concrete IRIs
`h#x`, `a/b` and `z`. -/
theorem c1_get_local_name_characterization_witness :
    get_local_name (['h'] ++ '#' :: ['x'])
      = Except.ok (['h'] ++ ['#'], (['x'] : Str).takeWhile (· ≠ '#'))
    ∧ get_local_name (['a'] ++ '/' :: ['b'])
      = Except.ok (['a'] ++ ['/'], ['b'])
    ∧ get_local_name ['z']
      = Except.error "Unexpected IRI, contains neither hash nor slash." :=
  ⟨c1_get_local_name_characterization.1 ['h'] ['x'] (by decide),
   c1_get_local_name_characterization.2.1 ['a'] ['b'] (by decide) (by decide),
   c1_get_local_name_characterization.2.2 ['z'] (by decide) (by decide)⟩

/-- C4: for every edge label, `_get_triples` contributes at most 10
`RelationshipPattern` entries for that label, regardless of the sampled
matches: the result is the concatenation of per-label contributions and
each contribution has length at most 10. -/
theorem c4_triples_capped_at_ten :
    ∀ (qm : String → List TripleRow) (e_labels : List String),
      get_triples qm e_labels = (e_labels.map (tripleContrib qm)).flatten
      ∧ ∀ label, (tripleContrib qm label).length ≤ 10 := by
  intro qm e_labels
  refine ⟨rfl, fun label => ?_⟩
  unfold tripleContrib runTripleQuery
  rw [List.length_map, List.length_take]
  exact Nat.min_le_left 10 _

/-- The pattern-query matches of the C5 example: edge label ACTED_IN whose
bounded sample contains the row {from:[Person], edge:ACTED_IN, to:[Movie]}
exactly twice. -/
def c5Matches : String → List TripleRow := fun _ =>
  [{ fromLabels := ["Person"], edge := "ACTED_IN", toLabels := ["Movie"] },
   { fromLabels := ["Person"], edge := "ACTED_IN", toLabels := ["Movie"] }]

/-- C5: with the duplicated ACTED_IN row sampled twice, `_get_triples`
produces exactly one pattern (Person, ACTED_IN, Movie); the 3000-match cap
is applied before the query's deduplication, and the 10-row limit applies
to the rows as returned (which `_get_triples` appends raw, with no
client-side dedup of its own). -/
theorem c5_acted_in_single_pattern :
    get_triples c5Matches ["ACTED_IN"]
      = [{ left_node := "Person", right_node := "Movie", relation := "ACTED_IN" }]
    ∧ ∀ ms : List TripleRow, runTripleQuery ms = (dedupFirst (ms.take 3000)).take 10 := by
  exact ⟨by decide, fun ms => rfl⟩

/-- C10: `_get_triples` builds each pattern from `d['from'][0]` and
`d['to'][0]` only: for a row whose endpoint label lists are `f :: fs` and
`t :: ts`, the resulting pattern is (f, edge, t), discarding every label
after the first. -/
theorem c10_pattern_uses_first_labels :
    (∀ (qm : String → List TripleRow) (e_labels : List String),
      get_triples qm e_labels
        = (e_labels.map fun label => (runTripleQuery (qm label)).map toPattern).flatten)
    ∧ ∀ (f t e : String) (fs ts : List String),
        toPattern { fromLabels := f :: fs, edge := e, toLabels := t :: ts }
          = { left_node := f, right_node := t, relation := e } := by
  exact ⟨fun qm e_labels => rfl, fun f t e fs ts => rfl⟩

/-- C9: when the summary reports no node labels and no edge labels, the LPG
schema build returns the valid all-empty `GraphSchema` (via
`_refresh_lpg_schema` and via `get_lpg_schema` on a cold cache) and does
not produce an error. -/
theorem c9_empty_summary_empty_schema (env : LpgEnv) (st : DBState)
    (h : env.summary = .ok { nodeLabels := [], edgeLabels := [] }) :
    refresh_lpg_schema env st
      = .ok (⟨[], [], []⟩,
             { st with schema := some ⟨[], [], []⟩,
                       queryCount := st.queryCount + 1 })
    ∧ (st.schema = none →
        get_lpg_schema env st
          = .ok (⟨[], [], []⟩,
                 { st with schema := some ⟨[], [], []⟩,
                           queryCount := st.queryCount + 1 })) := by
  have h1 : refresh_lpg_schema env st
      = .ok (⟨[], [], []⟩,
             { st with schema := some ⟨[], [], []⟩,
                       queryCount := st.queryCount + 1 }) := by
    simp [refresh_lpg_schema, h, get_triples, get_node_properties,
      get_edge_properties, tripleContrib]
  exact ⟨h1, fun hs => by simp [get_lpg_schema, hs, h1]⟩

/-- An environment whose summary reports no labels at all. -/
def c9Env : LpgEnv :=
  { summary := .ok { nodeLabels := [], edgeLabels := [] },
    tripleMatches := fun _ => [],
    nodeSamples := fun _ => [],
    edgeSamples := fun _ => [] }

/-- C9, witness: the empty-summary theorem applied to a concrete
environment and a cold connection state. -/
theorem c9_empty_summary_empty_schema_witness :
    refresh_lpg_schema c9Env ⟨none, none, 0⟩
      = .ok (⟨[], [], []⟩, ⟨some ⟨[], [], []⟩, none, 1⟩)
    ∧ get_lpg_schema c9Env ⟨none, none, 0⟩
      = .ok (⟨[], [], []⟩, ⟨some ⟨[], [], []⟩, none, 1⟩) := by
  have h := c9_empty_summary_empty_schema c9Env ⟨none, none, 0⟩ rfl
  exact ⟨h.1, h.2 rfl⟩

/-- C6, counterexample: for a SELECT query the assembled body is
`query=<normalized>`, but the request as sent carries Content-Type
`application/x-www-form-urlencoded` (line 589 unconditionally overwrites
the per-type value), not `application/sparql-query` as the claim states. -/
theorem c6_counterexample :
    (buildSparqlRequest "https://h:8182" "SELECT" "SELECT * WHERE").data
      = "query=SELECT * WHERE"
    ∧ (buildSparqlRequest "https://h:8182" "SELECT" "SELECT * WHERE").headers.lookup
        "Content-Type" = some "application/x-www-form-urlencoded"
    ∧ "application/x-www-form-urlencoded" ≠ "application/sparql-query" := by
  refine ⟨by decide, by decide, by decide⟩

/-- C6 (amended): the body is `query=<normalized>` when the operation
keyword (uppercased) is SELECT / CONSTRUCT / ASK / DESCRIBE and
`update=<normalized>` otherwise; the per-type Content-Type is assigned but
then overwritten, so the request actually sent carries
`application/x-www-form-urlencoded` in every case. -/
theorem c6_request_body_and_content_type :
    ∀ (endpointUrl queryType q : String),
      (pyUpper queryType ∈ sparqlQueryKeywords →
        (buildSparqlRequest endpointUrl queryType q).data
          = "query=" ++ normalizeQuery q)
      ∧ (pyUpper queryType ∉ sparqlQueryKeywords →
        (buildSparqlRequest endpointUrl queryType q).data
          = "update=" ++ normalizeQuery q)
      ∧ (buildSparqlRequest endpointUrl queryType q).headers.lookup
          "Content-Type" = some "application/x-www-form-urlencoded" := by
  intro endpointUrl queryType q
  refine ⟨fun h => ?_, fun h => ?_, ?_⟩
  · simp only [buildSparqlRequest, if_pos h]
  · simp only [buildSparqlRequest, if_neg h]
  · by_cases h : pyUpper queryType ∈ sparqlQueryKeywords
    · simp only [buildSparqlRequest, if_pos h]
      decide
    · simp only [buildSparqlRequest, if_neg h]
      decide

/-- C6, witness: the amended statement evaluated on a concrete SELECT
query and a concrete INSERT (update) query. -/
theorem c6_request_body_and_content_type_witness :
    ((buildSparqlRequest "https://h:8182" "SELECT" "SELECT * WHERE").data
        = "query=" ++ normalizeQuery "SELECT * WHERE")
    ∧ ((buildSparqlRequest "https://h:8182" "INSERT" "INSERT DATA").data
        = "update=" ++ normalizeQuery "INSERT DATA")
    ∧ (buildSparqlRequest "https://h:8182" "SELECT" "SELECT * WHERE").headers.lookup
        "Content-Type" = some "application/x-www-form-urlencoded" :=
  ⟨(c6_request_body_and_content_type "https://h:8182" "SELECT" "SELECT * WHERE").1
      (by decide),
   (c6_request_body_and_content_type "https://h:8182" "INSERT" "INSERT DATA").2.1
      (by decide),
   (c6_request_body_and_content_type "https://h:8182" "SELECT" "SELECT * WHERE").2.2⟩

/-- C7, counterexample: a non-success (HTTP 500) response whose body
parses as JSON yields a normal return value from `_query_sparql`, not a
raised error — the source never inspects `resp.status_code`
(database.py:596-600 end with `return json.loads(resp.text)`). -/
theorem c7_counterexample :
    sparqlResult (fun s => Except.ok s) { status := 500, text := "ServerError" }
      = Except.ok "ServerError"
    ∧ 400 ≤ 500 := by
  exact ⟨rfl, by decide⟩

/- Lemmas for the property-type aggregation (C3). -/

theorem lookup_updateProp_self (props : List (String × List String))
    (k t : String) :
    (updateProp props k t).lookup k
      = some (insertType ((props.lookup k).getD []) t) := by
  induction props with
  | nil => simp [updateProp, List.lookup, insertType]
  | cons kv rest ih =>
    obtain ⟨k', ts⟩ := kv
    by_cases h : k' = k
    · subst h
      simp [updateProp, List.lookup]
    · have h' : ¬ k = k' := fun he => h he.symm
      have hb : (k == k') = false := beq_eq_false_iff_ne.mpr h'
      simp [updateProp, List.lookup, h, hb, ih]

theorem lookup_updateProp_ne (props : List (String × List String))
    (k k' t : String) (h : k ≠ k') :
    (updateProp props k' t).lookup k = props.lookup k := by
  have hb : (k == k') = false := beq_eq_false_iff_ne.mpr h
  induction props with
  | nil => simp [updateProp, List.lookup, hb]
  | cons kv rest ih =>
    obtain ⟨k'', ts⟩ := kv
    by_cases h2 : k'' = k'
    · subst h2
      simp [updateProp, List.lookup, hb]
    · simp [updateProp, List.lookup, h2, ih]

theorem toFinset_insertType (ts : List String) (t : String) :
    (insertType ts t).toFinset = insert t ts.toFinset := by
  unfold insertType
  split
  · rename_i h
    exact (Finset.insert_eq_self.mpr (List.mem_toFinset.mpr h)).symm
  · rw [List.toFinset_append]
    simp only [List.toFinset_cons, List.toFinset_nil]
    rw [Finset.union_comm]
    simp [Finset.insert_eq]

/-- The multiset of type tags observed for key `k` in a stream of sampled
`(key, value)` items. -/
def observedTypes (pairs : List (String × PropValue)) (k : String) :
    List String :=
  pairs.filterMap fun kv =>
    if kv.1 = k then some (typesGet (typeName kv.2)) else none

theorem foldl_aggStep_lookup (pairs : List (String × PropValue))
    (props : List (String × List String)) (k : String) :
    (((pairs.foldl aggStep props).lookup k).getD []).toFinset
      = ((props.lookup k).getD []).toFinset ∪ (observedTypes pairs k).toFinset := by
  induction pairs generalizing props with
  | nil => simp [observedTypes]
  | cons kv rest ih =>
    obtain ⟨k', v⟩ := kv
    rw [List.foldl_cons, ih]
    by_cases h : k' = k
    · subst h
      rw [show aggStep props (k', v) = updateProp props k' (typesGet (typeName v))
            from rfl]
      rw [lookup_updateProp_self]
      simp only [Option.getD_some]
      rw [toFinset_insertType]
      have hobs : observedTypes ((k', v) :: rest) k'
          = typesGet (typeName v) :: observedTypes rest k' := by
        simp [observedTypes]
      rw [hobs, List.toFinset_cons, Finset.insert_union, Finset.union_insert]
    · rw [show aggStep props (k', v) = updateProp props k' (typesGet (typeName v))
            from rfl]
      rw [lookup_updateProp_ne _ _ _ _ fun he => h he.symm]
      simp [observedTypes, List.filterMap_cons, h]

theorem aggProps_eq_foldl_flatten (rows : List (List (String × PropValue))) :
    aggProps rows = rows.flatten.foldl aggStep [] := by
  have h : ∀ (rs : List (List (String × PropValue)))
      (init : List (String × List String)),
      rs.foldl (fun props row => row.foldl aggStep props) init
        = rs.flatten.foldl aggStep init := by
    intro rs
    induction rs with
    | nil => intro init; rfl
    | cons r rest ih =>
      intro init
      rw [List.foldl_cons, ih, List.flatten_cons, List.foldl_append]
  exact h rows []

/-- C3: in `_get_node_properties` / `_get_edge_properties` the recorded
type of each property key is the set union of the type tags of all values
observed for that key across the sampled instances; in particular sampling
`{age: 30}` then `{age: 25.5}` yields property `age` with type set
`{INTEGER, DOUBLE}` for any label. -/
theorem c3_property_types_are_union :
    (∀ (rows : List (List (String × PropValue))) (k : String),
        (((aggProps rows).lookup k).getD []).toFinset
          = (observedTypes rows.flatten k).toFinset)
    ∧ get_node_properties
        (fun _ => [[("age", PropValue.vint 30)], [("age", PropValue.vfloat "25.5")]])
        ["Person"]
        = [{ labels := "Person",
             properties := [{ name := "age", type := ["INTEGER", "DOUBLE"] }] }]
    ∧ get_edge_properties
        (fun _ => [[("age", PropValue.vint 30)], [("age", PropValue.vfloat "25.5")]])
        ["ACTED_IN"]
        = [{ type := "ACTED_IN",
             properties := [{ name := "age", type := ["INTEGER", "DOUBLE"] }] }] := by
  refine ⟨fun rows k => ?_, by decide, by decide⟩
  rw [aggProps_eq_foldl_flatten, foldl_aggStep_lookup]
  simp

/-- C7 (amended): `_query_sparql` never branches on the HTTP status: its
outcome is exactly the JSON parse of the response body, identical for any
two statuses; a non-success response is surfaced as an error only when its
body fails to parse as JSON. -/
theorem c7_result_ignores_status :
    ∀ (α : Type) (jsonLoads : String → Except String α)
      (status status2 : Nat) (body : String),
      sparqlResult jsonLoads { status := status, text := body } = jsonLoads body
      ∧ sparqlResult jsonLoads { status := status, text := body }
          = sparqlResult jsonLoads { status := status2, text := body } := by
  intro α jsonLoads s1 s2 b
  exact ⟨rfl, rfl⟩

/- Lemmas for the malformed-IRI handling in the binding loop (C8). -/

theorem ontologyChain_type_other (st : RDFBuild) (s o : String)
    (h : o ≠ owlOntologyUri) :
    processOntologyChain st s rdfTypeUri o = st := by
  unfold processOntologyChain
  rw [if_neg fun hc => h hc.2]
  rw [if_neg fun hc => absurd hc.1 (by decide)]
  rw [if_neg fun hc => absurd hc.1 (by decide)]

theorem classChain_type_class_malformed (st : RDFBuild) (s e : String)
    (herr : getLocalNameStr s = Except.error e) :
    processClassChain st s rdfTypeUri owlClassUri = st := by
  unfold processClassChain
  rw [if_pos ⟨rfl, rfl⟩, herr]

theorem classChain_type_other (st : RDFBuild) (s o : String)
    (h : o ≠ owlClassUri) :
    processClassChain st s rdfTypeUri o = st := by
  unfold processClassChain
  rw [if_neg fun hc => h hc.2]
  rw [if_neg fun hc => absurd hc.1 (by decide)]
  rw [if_neg fun hc => absurd hc.1 (by decide)]
  rw [if_neg fun hc => absurd hc.1 (by decide)]

theorem dtpropChain_type_dtprop_malformed (st : RDFBuild) (s e : String)
    (herr : getLocalNameStr s = Except.error e) :
    processDtpropChain st s rdfTypeUri owlDatatypePropertyUri = st := by
  unfold processDtpropChain
  rw [if_pos ⟨rfl, rfl⟩, herr]

theorem dtpropChain_type_other (st : RDFBuild) (s o : String)
    (h : o ≠ owlDatatypePropertyUri) :
    processDtpropChain st s rdfTypeUri o = st := by
  unfold processDtpropChain
  rw [if_neg fun hc => h hc.2]
  rw [if_neg fun hc => absurd hc.1 (by decide)]
  rw [if_neg fun hc => absurd hc.1 (by decide)]
  rw [if_neg fun hc => absurd hc.1 (by decide)]
  rw [if_neg fun hc => absurd hc.1 (by decide)]
  rw [if_neg fun hc => absurd hc.1 (by decide)]

theorem opropChain_type_oprop_malformed (st : RDFBuild) (s e : String)
    (herr : getLocalNameStr s = Except.error e) :
    processOpropChain st s rdfTypeUri owlObjectPropertyUri = st := by
  unfold processOpropChain
  rw [if_pos ⟨rfl, rfl⟩, herr]

theorem opropChain_type_other (st : RDFBuild) (s o : String)
    (h : o ≠ owlObjectPropertyUri) :
    processOpropChain st s rdfTypeUri o = st := by
  unfold processOpropChain
  rw [if_neg fun hc => h hc.2]
  rw [if_neg fun hc => absurd hc.1 (by decide)]
  rw [if_neg fun hc => absurd hc.1 (by decide)]
  rw [if_neg fun hc => absurd hc.1 (by decide)]
  rw [if_neg fun hc => absurd hc.1 (by decide)]
  rw [if_neg fun hc => absurd hc.1 (by decide)]

/-- A type-declaration binding whose subject URI contains neither `'#'`
nor `'/'`. -/
def c8BadBinding : Binding :=
  { s := some "urn:example", p := some rdfTypeUri, o := some owlClassUri }

/-- C8, counterexample: processing the malformed owl:Class binding leaves
the build state entirely unchanged — in particular the instrumented `log`
of logger output stays empty, refuting the claim that the binding is
logged: the handler is a bare `except ValueError: pass`
(database.py:492-493). -/
theorem c8_counterexample :
    processBindings {} [c8BadBinding] = ({} : RDFBuild)
    ∧ (processBindings {} [c8BadBinding]).log = [] := by
  exact ⟨by decide, by decide⟩

/-- C8 (amended): during `get_rdf_schema`, a binding typed owl:Class /
owl:DatatypeProperty / owl:ObjectProperty whose subject URI contains
neither `'#'` nor `'/'` is skipped silently (the `ValueError` is swallowed
by a bare `except: pass`; nothing is logged), aborting only that binding
while all remaining bindings are still processed; the standalone
`_get_local_name` utility raises unconditionally on such an IRI. -/
theorem c8_malformed_iri_skipped (st : RDFBuild) (s o : String) (b : Binding)
    (hb : b = { s := some s, p := some rdfTypeUri, o := some o })
    (ho : o = owlClassUri ∨ o = owlDatatypePropertyUri ∨ o = owlObjectPropertyUri)
    (h1 : '#' ∉ s.toList) (h2 : '/' ∉ s.toList) :
    processBinding st b = st
    ∧ (∀ (bs1 bs2 : List Binding) (init : RDFBuild),
        processBindings init (bs1 ++ b :: bs2) = processBindings init (bs1 ++ bs2))
    ∧ get_local_name s.toList
        = Except.error "Unexpected IRI, contains neither hash nor slash." := by
  have herr : get_local_name s.toList
      = Except.error "Unexpected IRI, contains neither hash nor slash." := by
    unfold get_local_name
    rw [if_neg h1, if_neg h2]
  have herrStr : getLocalNameStr s
      = Except.error "Unexpected IRI, contains neither hash nor slash." := by
    unfold getLocalNameStr
    rw [herr]
  have hskip : ∀ st' : RDFBuild, processBinding st' b = st' := by
    intro st'
    subst hb
    show processOpropChain
        (processDtpropChain
          (processClassChain
            (processOntologyChain st' s rdfTypeUri o) s rdfTypeUri o)
          s rdfTypeUri o) s rdfTypeUri o = st'
    rcases ho with rfl | rfl | rfl
    · rw [ontologyChain_type_other _ _ _ (by decide),
        classChain_type_class_malformed _ _ _ herrStr,
        dtpropChain_type_other _ _ _ (by decide),
        opropChain_type_other _ _ _ (by decide)]
    · rw [ontologyChain_type_other _ _ _ (by decide),
        classChain_type_other _ _ _ (by decide),
        dtpropChain_type_dtprop_malformed _ _ _ herrStr,
        opropChain_type_other _ _ _ (by decide)]
    · rw [ontologyChain_type_other _ _ _ (by decide),
        classChain_type_other _ _ _ (by decide),
        dtpropChain_type_other _ _ _ (by decide),
        opropChain_type_oprop_malformed _ _ _ herrStr]
  refine ⟨hskip st, fun bs1 bs2 init => ?_, herr⟩
  unfold processBindings
  rw [List.foldl_append, List.foldl_append, List.foldl_cons,
    hskip (List.foldl processBinding init bs1)]

/-- C8, witness: the amended statement applied to a concrete malformed
binding on the empty build state. -/
theorem c8_malformed_iri_skipped_witness :
    processBinding {} c8BadBinding = ({} : RDFBuild)
    ∧ processBindings {} ([] ++ c8BadBinding :: []) = processBindings {} ([] ++ [])
    ∧ get_local_name "urn:example".toList
        = Except.error "Unexpected IRI, contains neither hash nor slash." :=
  have h := c8_malformed_iri_skipped {} "urn:example" owlClassUri c8BadBinding
    rfl (Or.inl rfl) (by decide) (by decide)
  ⟨h.1, h.2.1 [] [] {}, h.2.2⟩

/-- The RDF environment used by the memoization witness. -/
def c2RdfEnv : RdfEnv :=
  { rdfSummary := { classes := [], predicateKeys := [] },
    sparqlBindings := some [] }

/-- C2: schema accessors are memoized.  On a cold cache the first
`get_lpg_schema` call performs the refresh (issuing the summary and graph
queries once); the second call returns the very same schema and leaves the
state — including the query counter — untouched, and the cached field still
holds that schema.  Likewise `get_rdf_schema` issues its two backend calls
on first access only, and a repeated call returns the same schema object
with no further state change. -/
theorem c2_schema_memoization (envL : LpgEnv) (envR : RdfEnv) (st : DBState)
    (g : GraphSchema) (st1 : DBState)
    (hcold : st.schema = none)
    (h1 : get_lpg_schema envL st = .ok (g, st1)) :
    get_lpg_schema envL st = refresh_lpg_schema envL st
    ∧ get_lpg_schema envL st1 = .ok (g, st1)
    ∧ st1.schema = some g
    ∧ (∀ st' : DBState, st'.rdf_schema = none →
        get_rdf_schema envR (get_rdf_schema envR st').2
          = ((get_rdf_schema envR st').1, (get_rdf_schema envR st').2)
        ∧ (get_rdf_schema envR st').2.queryCount = st'.queryCount + 2) := by
  have hfirst : get_lpg_schema envL st = refresh_lpg_schema envL st := by
    simp [get_lpg_schema, hcold]
  have hschema : st1.schema = some g := by
    rw [hfirst] at h1
    cases hs : envL.summary with
    | error e => simp [refresh_lpg_schema, hs] at h1
    | ok summ =>
      simp only [refresh_lpg_schema, hs, Except.ok.injEq, Prod.mk.injEq] at h1
      rw [← h1.2]
      rw [← h1.1]
  refine ⟨hfirst, ?_, hschema, ?_⟩
  · simp [get_lpg_schema, hschema]
  · intro st' h'
    constructor
    · simp [get_rdf_schema, h']
    · simp [get_rdf_schema, h']

/-- C2, witness: the memoization theorem applied to the empty-summary
environment and a cold connection state. -/
theorem c2_schema_memoization_witness :
    get_lpg_schema c9Env ⟨none, none, 0⟩ = refresh_lpg_schema c9Env ⟨none, none, 0⟩
    ∧ get_lpg_schema c9Env ⟨some ⟨[], [], []⟩, none, 1⟩
        = .ok (⟨[], [], []⟩, ⟨some ⟨[], [], []⟩, none, 1⟩)
    ∧ (⟨some ⟨[], [], []⟩, none, 1⟩ : DBState).schema = some ⟨[], [], []⟩
    ∧ (get_rdf_schema c2RdfEnv (get_rdf_schema c2RdfEnv ⟨none, none, 0⟩).2
        = ((get_rdf_schema c2RdfEnv ⟨none, none, 0⟩).1,
           (get_rdf_schema c2RdfEnv ⟨none, none, 0⟩).2)
       ∧ (get_rdf_schema c2RdfEnv ⟨none, none, 0⟩).2.queryCount = 0 + 2) :=
  have h := c2_schema_memoization c9Env c2RdfEnv ⟨none, none, 0⟩
    ⟨[], [], []⟩ ⟨some ⟨[], [], []⟩, none, 1⟩ rfl rfl
  ⟨h.1, h.2.1, h.2.2.1, h.2.2.2 ⟨none, none, 0⟩ rfl⟩

end NeptuneMCP
